import Mathlib

/-!
Shallow embedding of the greengrids simulation pipeline: the emission
generator and store queries of src/emission_utils.py and the dispersion and
capture stage runners of src/dispersion_utils.py.

Modelling conventions:
* The persisted JSON store is an association list keyed by year, each year an
  association list keyed by district name (Python dicts iterate in insertion
  order, which association lists preserve).
* Python numbers are modelled as rationals; `round(x, 2)` is `round2` below.
* `random.uniform(lo, hi)` is modelled by an oracle function (a `Draw`)
  supplied as an explicit argument, indexed by the call site (year, district,
  component); range membership of the oracle's output is a hypothesis where a
  claim needs it.
* File I/O is modelled by passing the read outcome (`Except`) or the loaded
  store in as an argument; a function's writes appear in its result.
* A raised-and-caught Python exception is modelled with `Except` for the
  protected body and the handler's fallback applied to the error case.
-/

/-- One district's record in the store: a flat mapping of optional numeric
attributes, absent meaning "not yet written by any stage". -/
structure DistrictRecord where
  transport_emission : Option Rat
  industrial_emission : Option Rat
  residential_emission : Option Rat
  total_emission : Option Rat
  co2_concentration : Option Rat
  co2_concentration_after_dispersion : Option Rat
  co2_before_capture : Option Rat
  co2_after_capture : Option Rat
  total_capture : Option Rat
  percent_reduction : Option Rat
  interventions : Option (List (String × Rat))
deriving DecidableEq, Repr

/-- The record with every attribute absent. -/
def emptyRecord : DistrictRecord :=
  ⟨none, none, none, none, none, none, none, none, none, none, none⟩

/-- One year's slice of the store: district name (or the reserved key
"timestamp") to record. -/
abbrev YearData := List (String × DistrictRecord)

/-- The whole persisted store: year to year slice. -/
abbrev StoreData := List (String × YearData)

/-- A [min, max] range from EMISSION_CONFIG. -/
structure RangeCfg where
  min : Rat
  max : Rat
deriving DecidableEq, Repr

/-- Per-density-class configuration: a range for each emission component. -/
structure ClassConfig where
  transport : RangeCfg
  industrial : RangeCfg
  residential : RangeCfg
deriving DecidableEq, Repr

/-- EMISSION_CONFIG from src/emission_utils.py (lines 7-23). -/
def EMISSION_CONFIG : List (String × ClassConfig) :=
  [("urban", ⟨⟨1500, 3000⟩, ⟨2000, 5000⟩, ⟨800, 1500⟩⟩),
   ("rural", ⟨⟨200, 800⟩, ⟨100, 1000⟩, ⟨1000, 2500⟩⟩),
   ("suburban", ⟨⟨800, 1800⟩, ⟨500, 2000⟩, ⟨900, 1800⟩⟩)]

/-- DISTRICT_TYPES from src/emission_utils.py (lines 26-58), the static
district registry mapping each district name to its density class. -/
def DISTRICT_TYPES : List (String × String) :=
  [("Bengaluru Urban", "urban"), ("Bangalore North", "urban"),
   ("Bangalore East", "urban"), ("Bangalore South", "urban"),
   ("Defence Colony", "urban"), ("Anekal", "urban"),
   ("Yelahanka taluku", "urban"), ("Thanisandra", "urban"),
   ("Herohalli", "urban"), ("Nagadevanahalli", "urban"),
   ("Uttarahalli", "urban"), ("Vasanthpura", "urban"),
   ("Yelchenahalli", "urban"), ("Jaraganahalli", "urban"),
   ("Puttenahalli", "urban"), ("Bilekhalli", "urban"),
   ("Kodichikkanahalli", "urban"),
   ("Hosakote", "suburban"), ("Devanahalli", "suburban"),
   ("Doddaballapura", "suburban"), ("Nelmangala", "suburban"),
   ("Ramanagara", "suburban"), ("Chikkaballapura", "suburban"),
   ("Kolar", "suburban"), ("Tumakuru", "suburban"),
   ("default", "rural")]

/-- Python round(x, 2). Python rounds exact halves to even while Mathlib's
round rounds them up; no verified property and no concrete input used below
lands on an exact half at the second decimal, so the two agree everywhere we
evaluate. -/
def round2 (x : Rat) : Rat := (round (x * 100) : Int) / 100

/-- Oracle for random.uniform, indexed by emission component name: given the
component and the [lo, hi] bounds it returns the drawn value. -/
abbrev Draw := String → Rat → Rat → Rat

/-- The three figures produced by get_random_emission. -/
structure Emissions where
  transport : Rat
  industrial : Rat
  residential : Rat
deriving DecidableEq, Repr

/-- get_random_emission (src/emission_utils.py lines 60-67). `none` models the
KeyError Python would raise when the district type is not a key of
EMISSION_CONFIG. -/
def get_random_emission (draw : Draw) (district_type : String) : Option Emissions :=
  (List.lookup district_type EMISSION_CONFIG).map fun config =>
    ⟨round2 (draw "transport" config.transport.min config.transport.max),
     round2 (draw "industrial" config.industrial.min config.industrial.max),
     round2 (draw "residential" config.residential.min config.residential.max)⟩

/-- DISTRICT_TYPES.get(district, DISTRICT_TYPES['default']); the 'default'
entry of the table is "rural". -/
def district_type_of (district : String) : String :=
  (List.lookup district DISTRICT_TYPES).getD "rural"

/-- The per-district body of the loop in add_emission_data_to_json
(src/emission_utils.py lines 152-168): skip the reserved "timestamp" key, skip
records that already have total_emission, otherwise draw the three components
and set total_emission to the rounded sum. The `none` branch of the match is
unreachable (`district_type_configured` below): in Python it would be a
KeyError aborting the call. -/
def update_district_record (draw : Draw) (district : String)
    (rec : DistrictRecord) : DistrictRecord :=
  if district = "timestamp" then rec
  else if rec.total_emission.isSome then rec
  else
    match get_random_emission draw (district_type_of district) with
    | none => rec
    | some e =>
      { rec with
          transport_emission := some e.transport,
          industrial_emission := some e.industrial,
          residential_emission := some e.residential,
          total_emission := some (round2 (e.transport + e.industrial + e.residential)) }

/-- add_emission_data_to_json (src/emission_utils.py lines 146-173), acting on
the loaded store: for every year and every district under it, apply the
per-district update in place. The draw oracle is indexed by year and district
to model successive calls to the global random generator. -/
def add_emission_data_to_json (draw : String → String → Draw)
    (data : StoreData) : StoreData :=
  data.map fun ypair =>
    (ypair.1, ypair.2.map fun dpair =>
      (dpair.1, update_district_record (draw ypair.1 dpair.1) dpair.1 dpair.2))

/-- load_emission_data (src/emission_utils.py lines 69-79): any exception while
opening or parsing the file is caught, an error line is printed, and the empty
store is returned. -/
def load_emission_data (readResult : Except String StoreData) : StoreData :=
  match readResult with
  | Except.ok d => d
  | Except.error _ => []

/-- add_emission_data_to_json including its load step: the store content that
the function hands to save_emission_data when the initial read ends as
`readResult`. -/
def add_emission_data_from_load (draw : String → String → Draw)
    (readResult : Except String StoreData) : StoreData :=
  add_emission_data_to_json draw (load_emission_data readResult)

/-- Python division: dividing by zero raises ZeroDivisionError (for floats as
well as ints), modelled as the error case of Except. -/
def pyDiv (a b : Rat) : Except String Rat :=
  if b = 0 then Except.error "ZeroDivisionError" else Except.ok (a / b)

/-- The percentage breakdown in an emission view. -/
structure Breakdown where
  transport_percentage : Rat
  industrial_percentage : Rat
  residential_percentage : Rat
deriving DecidableEq, Repr

/-- The dictionary returned by get_emission_by_district. -/
structure EmissionView where
  district : String
  year : String
  transport_emission : Rat
  industrial_emission : Rat
  residential_emission : Rat
  total_emission : Rat
  breakdown : Breakdown
deriving DecidableEq, Repr

/-- The try-protected body of get_emission_by_district (src/emission_utils.py
lines 96-119), acting on the loaded store. The denominator of each percentage
is district_data.get("total_emission", 1); total_emission is known to be
present at that point, so the denominator is its value. A zero total therefore
raises ZeroDivisionError, which propagates out of this body. -/
def get_emission_by_district_core (data : StoreData) (district_name year : String) :
    Except String (Option EmissionView) :=
  match List.lookup year data with
  | none => Except.ok none
  | some year_data =>
    match List.lookup district_name year_data with
    | none => Except.ok none
    | some district_data =>
      match district_data.total_emission with
      | none => Except.ok none
      | some total => do
        let tp ← pyDiv (district_data.transport_emission.getD 0) total
        let ip ← pyDiv (district_data.industrial_emission.getD 0) total
        let rp ← pyDiv (district_data.residential_emission.getD 0) total
        Except.ok (some
          { district := district_name
            year := year
            transport_emission := district_data.transport_emission.getD 0
            industrial_emission := district_data.industrial_emission.getD 0
            residential_emission := district_data.residential_emission.getD 0
            total_emission := total
            breakdown :=
              ⟨round2 (tp * 100), round2 (ip * 100), round2 (rp * 100)⟩ })

/-- get_emission_by_district (src/emission_utils.py lines 94-122): the blanket
except handler prints the exception and returns None. -/
def get_emission_by_district (data : StoreData) (district_name year : String) :
    Option EmissionView :=
  match get_emission_by_district_core data district_name year with
  | Except.ok v => v
  | Except.error _ => none

/-- get_all_districts_emission_data (src/emission_utils.py lines 124-144):
iterate the year's districts in store order, skip the "timestamp" key, keep
every district for which the single-district query returns a view. -/
def get_all_districts_emission_data (data : StoreData) (year : String) :
    List EmissionView :=
  match List.lookup year data with
  | none => []
  | some year_data =>
    year_data.filterMap fun dpair =>
      if dpair.1 = "timestamp" then none
      else get_emission_by_district data dpair.1 year

/-- One entry of run_dispersion_simulation's results and of
get_dispersion_results. -/
structure DispersionResult where
  district : String
  year : String
  initial_concentration : Rat
  final_concentration : Rat
  total_emission : Rat
  neighbors : List String
deriving DecidableEq, Repr

/-- Exit status and error stream of an external kernel invocation
(subprocess.run's returncode and stderr). -/
structure KernelResult where
  returncode : Int
  stderr : String
deriving DecidableEq, Repr

/-- The simulation_params dictionary echoed inside a successful dispersion
run. -/
structure SimulationParams where
  steps : Int
  wind_speed : Rat
  wind_direction : String
  year : String
deriving DecidableEq, Repr

/-- Return value of run_dispersion_simulation: either the error dictionary or
the success dictionary with echoed parameters, per-district results and their
count. -/
inductive DispersionOutcome where
  | failure (message : String)
  | success (params : SimulationParams) (results : List DispersionResult)
      (total_districts : Nat)
deriving DecidableEq, Repr

/-- run_dispersion_simulation (src/dispersion_utils.py lines 7-54). `kernel`
is the outcome of the subprocess invocation of the diffusion kernel and `data`
the persisted store as the function would reload it after the kernel ran. The
second component of the result is the persisted store after the function's own
file operations: it performs none (only the kernel writes), so the store is
passed through unchanged; on failure it returns before even reading it. -/
def run_dispersion_simulation (steps : Int) (wind_speed : Rat)
    (wind_direction year : String) (kernel : KernelResult) (data : StoreData) :
    DispersionOutcome × StoreData :=
  if kernel.returncode ≠ 0 then
    (DispersionOutcome.failure ("Dispersion simulation failed: " ++ kernel.stderr), data)
  else
    let results : List DispersionResult :=
      match List.lookup year data with
      | none => []
      | some year_data =>
        year_data.filterMap fun dpair =>
          if dpair.1 = "timestamp" then none
          else some
            { district := dpair.1
              year := year
              initial_concentration := dpair.2.co2_concentration.getD 0
              final_concentration := dpair.2.co2_concentration_after_dispersion.getD 0
              total_emission := dpair.2.total_emission.getD 0
              neighbors := [] }
    (DispersionOutcome.success ⟨steps, wind_speed, wind_direction, year⟩
      results results.length, data)

/-- get_dispersion_results (src/dispersion_utils.py lines 56-84), acting on the
loaded store: one entry per district of the year, skipping "timestamp", missing
fields defaulting to 0. -/
def get_dispersion_results (data : StoreData) (year : String) :
    List DispersionResult :=
  match List.lookup year data with
  | none => []
  | some year_data =>
    year_data.filterMap fun dpair =>
      if dpair.1 = "timestamp" then none
      else some
        { district := dpair.1
          year := year
          initial_concentration := dpair.2.co2_concentration.getD 0
          final_concentration := dpair.2.co2_concentration_after_dispersion.getD 0
          total_emission := dpair.2.total_emission.getD 0
          neighbors := [] }

/-- One entry of get_capture_results. -/
structure CaptureResult where
  district : String
  year : String
  co2_before_capture : Rat
  co2_after_capture : Rat
  total_capture : Rat
  percent_reduction : Rat
  interventions : List (String × Rat)
  total_emission : Rat
deriving DecidableEq, Repr

/-- get_capture_results (src/dispersion_utils.py lines 103-133), acting on the
loaded store: one entry per district of the year, skipping "timestamp", every
missing field defaulting to 0 (interventions to the empty mapping). -/
def get_capture_results (data : StoreData) (year : String) : List CaptureResult :=
  match List.lookup year data with
  | none => []
  | some year_data =>
    year_data.filterMap fun dpair =>
      if dpair.1 = "timestamp" then none
      else some
        { district := dpair.1
          year := year
          co2_before_capture := dpair.2.co2_before_capture.getD 0
          co2_after_capture := dpair.2.co2_after_capture.getD 0
          total_capture := dpair.2.total_capture.getD 0
          percent_reduction := dpair.2.percent_reduction.getD 0
          interventions := dpair.2.interventions.getD []
          total_emission := dpair.2.total_emission.getD 0 }

example : round2 1500 = 1500 := by norm_num [round2, round_eq]
example : round2 (123456/100) = 123456/100 := by norm_num [round2, round_eq]
example : district_type_of "Kolar" = "suburban" := by decide
example : district_type_of "Atlantis" = "rural" := by decide
example : add_emission_data_to_json (fun _ _ _ lo _ => lo) [] = [] := rfl

/-! Helper lemmas about association-list lookup, the registry tables and
two-decimal rounding. -/

theorem lookup_map_values {β γ : Type} (f : String → β → γ)
    (l : List (String × β)) (k : String) :
    List.lookup k (l.map fun p => (p.1, f p.1 p.2))
      = (List.lookup k l).map fun v => f k v := by
  induction l with
  | nil => rfl
  | cons hd tl ih =>
    rcases hd with ⟨a, b⟩
    by_cases hk : k = a
    · subst hk
      simp [List.lookup_cons]
    · simp only [List.map_cons, List.lookup_cons, beq_false_of_ne hk, ih]

theorem mem_map_snd_of_lookup {β : Type} {l : List (String × β)} {k : String}
    {v : β} (h : List.lookup k l = some v) : v ∈ l.map Prod.snd := by
  induction l with
  | nil => simp [List.lookup] at h
  | cons hd tl ih =>
    rcases hd with ⟨a, b⟩
    rw [List.lookup_cons] at h
    by_cases hk : k = a
    · subst hk
      simp only [beq_self_eq_true] at h
      simp only [List.map_cons]
      exact (Option.some_inj.mp h) ▸ List.mem_cons_self _ _
    · rw [beq_false_of_ne hk] at h
      exact List.mem_cons_of_mem _ (ih h)

/-- Every class name stored in the district registry is a key of
EMISSION_CONFIG. -/
theorem registry_class_configured :
    ∀ s ∈ DISTRICT_TYPES.map Prod.snd, (List.lookup s EMISSION_CONFIG).isSome := by
  decide

/-- district_type_of always yields a key of EMISSION_CONFIG, so the KeyError
branch of get_random_emission is unreachable from the generator. -/
theorem district_type_configured (district : String) :
    (List.lookup (district_type_of district) EMISSION_CONFIG).isSome := by
  unfold district_type_of
  cases h : List.lookup district DISTRICT_TYPES with
  | none => decide
  | some s =>
    simpa using registry_class_configured s (mem_map_snd_of_lookup h)

theorem get_random_emission_isSome (draw : Draw) (district : String) :
    (get_random_emission draw (district_type_of district)).isSome := by
  unfold get_random_emission
  cases h : List.lookup (district_type_of district) EMISSION_CONFIG with
  | none => exact absurd (district_type_configured district) (by simp [h])
  | some cfg => simp

/-- round is monotone. -/
theorem round_le_round {x y : Rat} (h : x ≤ y) : round x ≤ round y := by
  rw [round_eq, round_eq]
  exact Int.floor_le_floor (by linarith)

/-- round2 is monotone. -/
theorem round2_le_round2 {x y : Rat} (h : x ≤ y) : round2 x ≤ round2 y := by
  unfold round2
  have := round_le_round (x := x * 100) (y := y * 100) (by nlinarith)
  have h100 : (0:Rat) ≤ 100 := by norm_num
  exact div_le_div_of_nonneg_right (by exact_mod_cast this) h100

/-- round2 fixes integers. -/
theorem round2_intCast (n : Int) : round2 (n : Rat) = n := by
  unfold round2
  have : ((n : Rat) * 100) = ((n * 100 : Int) : Rat) := by push_cast; ring
  rw [this, round_intCast]
  push_cast
  field_simp

/-- round2 moves a value by at most 1/200. -/
theorem abs_round2_sub_le (x : Rat) : |round2 x - x| ≤ 1 / 200 := by
  unfold round2
  have h := abs_sub_round (x * 100)
  rw [abs_sub_comm] at h
  have : (round (x * 100) : Rat) / 100 - x = ((round (x * 100) : Rat) - x * 100) / 100 := by
    ring
  rw [this, abs_div]
  rw [abs_of_pos (show (0:Rat) < 100 by norm_num)]
  linarith [h]

/-- A value drawn inside an integer-bounded range stays inside it after
rounding to two decimals. -/
theorem round2_mem_of_mem {lo hi x : Rat} (hlo : round2 lo = lo)
    (hhi : round2 hi = hi) (h1 : lo ≤ x) (h2 : x ≤ hi) :
    lo ≤ round2 x ∧ round2 x ≤ hi :=
  ⟨hlo ▸ round2_le_round2 h1, hhi ▸ round2_le_round2 h2⟩

/-- The three configured ranges: each bound is fixed by round2 and each range
is nonempty, for every class configuration reachable through a lookup. -/
theorem config_ranges_good {s : String} {cfg : ClassConfig}
    (h : List.lookup s EMISSION_CONFIG = some cfg) :
    (round2 cfg.transport.min = cfg.transport.min ∧
     round2 cfg.transport.max = cfg.transport.max ∧
     cfg.transport.min ≤ cfg.transport.max) ∧
    (round2 cfg.industrial.min = cfg.industrial.min ∧
     round2 cfg.industrial.max = cfg.industrial.max ∧
     cfg.industrial.min ≤ cfg.industrial.max) ∧
    (round2 cfg.residential.min = cfg.residential.min ∧
     round2 cfg.residential.max = cfg.residential.max ∧
     cfg.residential.min ≤ cfg.residential.max) := by
  have hmem := mem_map_snd_of_lookup h
  have hlist : EMISSION_CONFIG.map Prod.snd =
      [⟨⟨1500, 3000⟩, ⟨2000, 5000⟩, ⟨800, 1500⟩⟩,
       ⟨⟨200, 800⟩, ⟨100, 1000⟩, ⟨1000, 2500⟩⟩,
       ⟨⟨800, 1800⟩, ⟨500, 2000⟩, ⟨900, 1800⟩⟩] := rfl
  rw [hlist] at hmem
  simp only [List.mem_cons, List.mem_singleton, List.not_mem_nil, or_false] at hmem
  rcases hmem with rfl | rfl | rfl <;>
    refine ⟨⟨?_, ?_, ?_⟩, ⟨?_, ?_, ?_⟩, ?_, ?_, ?_⟩ <;>
      norm_num [round2, round_eq]

theorem update_district_record_of_total_isSome (draw : Draw) (district : String)
    {rec : DistrictRecord} (h : rec.total_emission.isSome) :
    update_district_record draw district rec = rec := by
  unfold update_district_record
  by_cases hd : district = "timestamp" <;> simp [hd, h]

theorem update_district_record_total_isSome (draw : Draw) {district : String}
    (hd : district ≠ "timestamp") (rec : DistrictRecord) :
    (update_district_record draw district rec).total_emission.isSome := by
  unfold update_district_record
  by_cases h : rec.total_emission.isSome
  · simp [hd, h]
  · have hsome := get_random_emission_isSome draw district
    cases hg : get_random_emission draw (district_type_of district) with
    | none => rw [hg] at hsome; simp at hsome
    | some e => simp [hd, h, hg]

theorem update_district_record_idem (draw1 draw2 : Draw) (district : String)
    (rec : DistrictRecord) :
    update_district_record draw2 district (update_district_record draw1 district rec)
      = update_district_record draw1 district rec := by
  by_cases hd : district = "timestamp"
  · simp [update_district_record, hd]
  · exact update_district_record_of_total_isSome draw2 district
      (update_district_record_total_isSome draw1 hd rec)

theorem lookup_add_emission (draw : String → String → Draw) (data : StoreData)
    (y : String) :
    List.lookup y (add_emission_data_to_json draw data)
      = (List.lookup y data).map fun yd =>
          yd.map fun dpair =>
            (dpair.1, update_district_record (draw y dpair.1) dpair.1 dpair.2) := by
  unfold add_emission_data_to_json
  exact lookup_map_values
    (fun yk yd => yd.map fun dpair =>
      (dpair.1, update_district_record (draw yk dpair.1) dpair.1 dpair.2))
    data y

/-- C4: calling the generator twice in succession leaves the store exactly as
after one call — in particular the same total_emission for every district and
year, with no re-randomization (the second call may use a fresh random
stream draw2 and still changes nothing). -/
theorem ensure_emissions_idempotent (draw1 draw2 : String → String → Draw)
    (data : StoreData) :
    add_emission_data_to_json draw2 (add_emission_data_to_json draw1 data)
      = add_emission_data_to_json draw1 data := by
  unfold add_emission_data_to_json
  rw [List.map_map]
  refine List.map_congr_left fun ypair _ => ?_
  simp only [Function.comp_apply]
  refine Prod.ext rfl ?_
  rw [List.map_map]
  refine List.map_congr_left fun dpair _ => ?_
  simp only [Function.comp_apply]
  exact Prod.ext rfl (update_district_record_idem _ _ _ _)

/-- C6 counterexample: the generator takes no year parameter and walks the
whole store, so a record under the year "2024" is changed even when the
scenario's year of interest is "2025": starting from a store with an
unpopulated district "Alpha" under "2024", the "2024" slice differs after the
call. -/
theorem ensure_emissions_other_year_modified :
    List.lookup "2024"
        (add_emission_data_to_json (fun _ _ _ lo _ => lo)
          [("2024", [("Alpha", emptyRecord)]), ("2025", [])])
      ≠ List.lookup "2024" [("2024", [("Alpha", emptyRecord)]), ("2025", [])] := by
  intro h
  simp only [lookup_add_emission] at h
  have h2 : update_district_record ((fun (_ _ : String) (_ : String) (lo _ : Rat) => lo)
      "2024" "Alpha") "Alpha" emptyRecord = emptyRecord := by
    have := congrArg (fun o => o.bind (List.lookup "Alpha")) h
    simpa [List.lookup] using this
  have h3 := update_district_record_total_isSome
    ((fun (_ _ : String) (_ : String) (lo _ : Rat) => lo) "2024" "Alpha")
    (show "Alpha" ≠ "timestamp" by decide) emptyRecord
  rw [h2] at h3
  simp [emptyRecord] at h3

/-- C6 amended: add_emission_data_to_json has no year parameter and processes
every year slice of the store alike: under any year, each district record is
replaced by its per-district update; that update is the identity exactly on
the timestamp entry and on records that already carry total_emission, while a
record lacking total_emission is populated (its total_emission becomes
present) whatever year it sits under. -/
theorem ensure_emissions_processes_every_year (draw : String → String → Draw)
    (data : StoreData) (y d : String) {yd : YearData} {rec : DistrictRecord}
    (hy : List.lookup y data = some yd) (hd : List.lookup d yd = some rec) :
    ∃ yd2, List.lookup y (add_emission_data_to_json draw data) = some yd2 ∧
      List.lookup d yd2 = some (update_district_record (draw y d) d rec) ∧
      ((d = "timestamp" ∨ rec.total_emission.isSome) →
          update_district_record (draw y d) d rec = rec) ∧
      (d ≠ "timestamp" →
          (update_district_record (draw y d) d rec).total_emission.isSome) := by
  refine ⟨yd.map fun dpair =>
      (dpair.1, update_district_record (draw y dpair.1) dpair.1 dpair.2), ?_, ?_, ?_, ?_⟩
  · rw [lookup_add_emission, hy]
    rfl
  · rw [lookup_map_values (fun dk r => update_district_record (draw y dk) dk r) yd d, hd]
    rfl
  · rintro (rfl | hsome)
    · simp [update_district_record]
    · exact update_district_record_of_total_isSome _ _ hsome
  · intro hts
    exact update_district_record_total_isSome _ hts rec

theorem ensure_emissions_processes_every_year_witness :
    ∃ yd2, List.lookup "2024"
        (add_emission_data_to_json (fun _ _ _ lo _ => lo)
          [("2024", [("Alpha", emptyRecord)])]) = some yd2 ∧
      List.lookup "Alpha" yd2
          = some (update_district_record
              ((fun (_ _ : String) (_ : String) (lo _ : Rat) => lo) "2024" "Alpha")
              "Alpha" emptyRecord) ∧
      (("Alpha" = "timestamp" ∨ emptyRecord.total_emission.isSome) →
          update_district_record
              ((fun (_ _ : String) (_ : String) (lo _ : Rat) => lo) "2024" "Alpha")
              "Alpha" emptyRecord = emptyRecord) ∧
      ("Alpha" ≠ "timestamp" →
          (update_district_record
              ((fun (_ _ : String) (_ : String) (lo _ : Rat) => lo) "2024" "Alpha")
              "Alpha" emptyRecord).total_emission.isSome) :=
  ensure_emissions_processes_every_year (fun _ _ _ lo _ => lo)
    [("2024", [("Alpha", emptyRecord)])] "2024" "Alpha" rfl rfl

/-- C1 counterexample: starting from the empty store, the generator populates
nothing — it only walks districts already present in the store, so the result
is still the empty store and the registered suburban district "Kolar" has no
emission view for "2025" afterwards. -/
theorem empty_store_generates_nothing :
    add_emission_data_to_json (fun _ _ _ lo _ => lo) [] = [] ∧
    get_emission_by_district
        (add_emission_data_to_json (fun _ _ _ lo _ => lo) []) "Kolar" "2025" = none :=
  ⟨rfl, rfl⟩

/-- C1 amended: for every district already present in the store under some
year (not the timestamp entry, and not yet carrying total_emission) and for
any draw oracle that respects its bounds, the generator fills in
transport_emission inside the district's density-class [min, max] range
(likewise the other two components) and sets total_emission to the rounded
sum of the three stored components. Districts of the registry absent from the
store — all of them, when the store is empty — are not added. -/
theorem ensure_emissions_populates_present_districts
    (draw : String → String → Draw)
    (hdraw : ∀ y d c lo hi, lo ≤ hi → lo ≤ draw y d c lo hi ∧ draw y d c lo hi ≤ hi)
    (data : StoreData) (y d : String) {yd : YearData} {rec : DistrictRecord}
    (hy : List.lookup y data = some yd) (hd : List.lookup d yd = some rec)
    (hts : d ≠ "timestamp") (hnone : rec.total_emission = none) :
    ∃ yd2 rec2 cfg t i r,
      List.lookup y (add_emission_data_to_json draw data) = some yd2 ∧
      List.lookup d yd2 = some rec2 ∧
      List.lookup (district_type_of d) EMISSION_CONFIG = some cfg ∧
      rec2.transport_emission = some t ∧
      rec2.industrial_emission = some i ∧
      rec2.residential_emission = some r ∧
      cfg.transport.min ≤ t ∧ t ≤ cfg.transport.max ∧
      cfg.industrial.min ≤ i ∧ i ≤ cfg.industrial.max ∧
      cfg.residential.min ≤ r ∧ r ≤ cfg.residential.max ∧
      rec2.total_emission = some (round2 (t + i + r)) := by
  obtain ⟨cfg, hcfg⟩ := Option.isSome_iff_exists.mp (district_type_configured d)
  obtain ⟨⟨ht1, ht2, ht3⟩, ⟨hi1, hi2, hi3⟩, hr1, hr2, hr3⟩ := config_ranges_good hcfg
  have hgrm : get_random_emission (draw y d) (district_type_of d) =
      some ⟨round2 (draw y d "transport" cfg.transport.min cfg.transport.max),
            round2 (draw y d "industrial" cfg.industrial.min cfg.industrial.max),
            round2 (draw y d "residential" cfg.residential.min cfg.residential.max)⟩ := by
    unfold get_random_emission
    rw [hcfg]
    rfl
  have hrec2 : update_district_record (draw y d) d rec =
      { rec with
          transport_emission :=
            some (round2 (draw y d "transport" cfg.transport.min cfg.transport.max)),
          industrial_emission :=
            some (round2 (draw y d "industrial" cfg.industrial.min cfg.industrial.max)),
          residential_emission :=
            some (round2 (draw y d "residential" cfg.residential.min cfg.residential.max)),
          total_emission :=
            some (round2
              (round2 (draw y d "transport" cfg.transport.min cfg.transport.max) +
               round2 (draw y d "industrial" cfg.industrial.min cfg.industrial.max) +
               round2 (draw y d "residential" cfg.residential.min cfg.residential.max))) } := by
    unfold update_district_record
    rw [if_neg hts, hnone]
    simp only [Option.isSome_none, Bool.false_eq_true, if_false, hgrm]
  obtain ⟨yd2, hyd2, hdd2, -, -⟩ :=
    ensure_emissions_processes_every_year draw data y d hy hd
  refine ⟨yd2, update_district_record (draw y d) d rec, cfg,
    round2 (draw y d "transport" cfg.transport.min cfg.transport.max),
    round2 (draw y d "industrial" cfg.industrial.min cfg.industrial.max),
    round2 (draw y d "residential" cfg.residential.min cfg.residential.max),
    hyd2, hdd2, hcfg, ?_, ?_, ?_, ?_, ?_, ?_, ?_, ?_, ?_, ?_⟩
  · rw [hrec2]
  · rw [hrec2]
  · rw [hrec2]
  · exact (round2_mem_of_mem ht1 ht2 (hdraw y d "transport" _ _ ht3).1
      (hdraw y d "transport" _ _ ht3).2).1
  · exact (round2_mem_of_mem ht1 ht2 (hdraw y d "transport" _ _ ht3).1
      (hdraw y d "transport" _ _ ht3).2).2
  · exact (round2_mem_of_mem hi1 hi2 (hdraw y d "industrial" _ _ hi3).1
      (hdraw y d "industrial" _ _ hi3).2).1
  · exact (round2_mem_of_mem hi1 hi2 (hdraw y d "industrial" _ _ hi3).1
      (hdraw y d "industrial" _ _ hi3).2).2
  · exact (round2_mem_of_mem hr1 hr2 (hdraw y d "residential" _ _ hr3).1
      (hdraw y d "residential" _ _ hr3).2).1
  · exact (round2_mem_of_mem hr1 hr2 (hdraw y d "residential" _ _ hr3).1
      (hdraw y d "residential" _ _ hr3).2).2
  · rw [hrec2]

theorem ensure_emissions_populates_present_districts_witness :
    ∃ yd2 rec2 cfg t i r,
      List.lookup "2025" (add_emission_data_to_json (fun _ _ _ lo _ => lo)
          [("2025", [("Kolar", emptyRecord)])]) = some yd2 ∧
      List.lookup "Kolar" yd2 = some rec2 ∧
      List.lookup (district_type_of "Kolar") EMISSION_CONFIG = some cfg ∧
      rec2.transport_emission = some t ∧
      rec2.industrial_emission = some i ∧
      rec2.residential_emission = some r ∧
      cfg.transport.min ≤ t ∧ t ≤ cfg.transport.max ∧
      cfg.industrial.min ≤ i ∧ i ≤ cfg.industrial.max ∧
      cfg.residential.min ≤ r ∧ r ≤ cfg.residential.max ∧
      rec2.total_emission = some (round2 (t + i + r)) :=
  ensure_emissions_populates_present_districts (fun _ _ _ lo _ => lo)
    (fun _ _ _ _ _ h => ⟨le_refl _, h⟩)
    [("2025", [("Kolar", emptyRecord)])] "2025" "Kolar" rfl rfl
    (by decide) rfl

/-- C3 counterexample: a failing read (for instance a missing state file) is
not propagated — load_emission_data returns the empty store, and the
generator's read path proceeds against that empty store instead of surfacing
the failure. -/
theorem load_failure_empty_store_example :
    load_emission_data (Except.error "No such file or directory") = [] ∧
    add_emission_data_from_load (fun _ _ _ lo _ => lo)
        (Except.error "No such file or directory") = [] :=
  ⟨rfl, rfl⟩

/-- C3 amended: a store I/O failure on the read path is swallowed, not
propagated: load_emission_data catches every exception and returns the empty
store, so add_emission_data_to_json silently proceeds against the empty store
(its final save then overwrites the file with that content); a successful
read is passed through unchanged. -/
theorem load_failure_swallowed (e : String) (draw : String → String → Draw)
    (data : StoreData) :
    load_emission_data (Except.error e) = [] ∧
    add_emission_data_from_load draw (Except.error e) = [] ∧
    load_emission_data (Except.ok data) = data :=
  ⟨rfl, rfl, rfl⟩

/-- C2 counterexample: for a stored record whose total_emission is 0, the
breakdown division raises ZeroDivisionError inside the protected body and the
blanket handler turns it into None — the function returns none, not a view
with a 0% breakdown. -/
theorem zero_total_returns_none_example :
    get_emission_by_district_core
        [("2025", [("Dist", { emptyRecord with total_emission := some 0 })])]
        "Dist" "2025" = Except.error "ZeroDivisionError" ∧
    get_emission_by_district
        [("2025", [("Dist", { emptyRecord with total_emission := some 0 })])]
        "Dist" "2025" = none := by
  constructor
  · rfl
  · rfl

theorem except_bind_ok {ε α β : Type} (a : α) (f : α → Except ε β) :
    (Except.ok a >>= f) = f a := rfl

theorem except_bind_error {ε α β : Type} (e : ε) (f : α → Except ε β) :
    ((Except.error e : Except ε α) >>= f) = Except.error e := rfl

/-- C2 amended: for every stored district record whose total_emission is 0,
the breakdown computation raises ZeroDivisionError inside the protected body
and the blanket except handler converts it to None: the caller receives none
(no view with a 0% breakdown), and no division error escapes. -/
theorem zero_total_emission_returns_none (data : StoreData) (d y : String)
    {yd : YearData} {rec : DistrictRecord}
    (hy : List.lookup y data = some yd) (hd : List.lookup d yd = some rec)
    (h0 : rec.total_emission = some 0) :
    get_emission_by_district_core data d y = Except.error "ZeroDivisionError" ∧
    get_emission_by_district data d y = none := by
  have hcore : get_emission_by_district_core data d y
      = Except.error "ZeroDivisionError" := by
    unfold get_emission_by_district_core
    simp [hy, hd, h0, pyDiv, except_bind_error]
  refine ⟨hcore, ?_⟩
  unfold get_emission_by_district
  rw [hcore]

theorem zero_total_emission_returns_none_witness :
    get_emission_by_district_core
        [("2025", [("Hosakote", { emptyRecord with total_emission := some 0 })])]
        "Hosakote" "2025" = Except.error "ZeroDivisionError" ∧
    get_emission_by_district
        [("2025", [("Hosakote", { emptyRecord with total_emission := some 0 })])]
        "Hosakote" "2025" = none :=
  zero_total_emission_returns_none
    [("2025", [("Hosakote", { emptyRecord with total_emission := some 0 })])]
    "Hosakote" "2025" rfl rfl rfl

/-- C5 counterexample: when the diffusion kernel exits with status 1 and
stderr "bad wind value", the runner's failure message is the prefixed string
"Dispersion simulation failed: bad wind value" — not exactly "bad wind
value" as claimed. -/
theorem dispersion_failure_message_example :
    (run_dispersion_simulation 20 5 "NE" "2025" ⟨1, "bad wind value"⟩ []).1
        = DispersionOutcome.failure "Dispersion simulation failed: bad wind value" ∧
    "Dispersion simulation failed: bad wind value" ≠ "bad wind value" := by
  exact ⟨rfl, by decide⟩

/-- C5 amended: a non-zero kernel exit makes run_dispersion_simulation return
the failure dictionary whose message is "Dispersion simulation failed: "
followed by the kernel's stderr, with no partial result (the failure carries
no result entries) and the persisted store passed through unchanged — the
runner itself performs no store write. -/
theorem dispersion_failure_no_partial_result (steps : Int) (ws : Rat)
    (wd y : String) (kernel : KernelResult) (data : StoreData)
    (h : kernel.returncode ≠ 0) :
    run_dispersion_simulation steps ws wd y kernel data
      = (DispersionOutcome.failure
          ("Dispersion simulation failed: " ++ kernel.stderr), data) := by
  unfold run_dispersion_simulation
  rw [if_pos h]

theorem dispersion_failure_no_partial_result_witness :
    run_dispersion_simulation 20 5 "NE" "2025" ⟨1, "bad wind value"⟩
        [("2025", [("Kolar", emptyRecord)])]
      = (DispersionOutcome.failure "Dispersion simulation failed: bad wind value",
         [("2025", [("Kolar", emptyRecord)])]) :=
  dispersion_failure_no_partial_result 20 5 "NE" "2025" ⟨1, "bad wind value"⟩
    [("2025", [("Kolar", emptyRecord)])] (by decide)

/-- C8: querying any of the three result sets for a year absent from the
store returns the empty sequence, not a failure. -/
theorem missing_year_returns_empty (data : StoreData) (y : String)
    (h : List.lookup y data = none) :
    get_all_districts_emission_data data y = [] ∧
    get_dispersion_results data y = [] ∧
    get_capture_results data y = [] := by
  unfold get_all_districts_emission_data get_dispersion_results get_capture_results
  simp [h]

theorem missing_year_returns_empty_witness :
    get_all_districts_emission_data [("2025", [("Kolar", emptyRecord)])] "2030" = [] ∧
    get_dispersion_results [("2025", [("Kolar", emptyRecord)])] "2030" = [] ∧
    get_capture_results [("2025", [("Kolar", emptyRecord)])] "2030" = [] :=
  missing_year_returns_empty [("2025", [("Kolar", emptyRecord)])] "2030" rfl

/-- C10: on a zero kernel exit status, the result sequence embedded in
run_dispersion_simulation's success value (built from the reloaded store) is
exactly what get_dispersion_results computes on the same store and year, and
the runner again leaves the store untouched. -/
theorem run_dispersion_matches_query (steps : Int) (ws : Rat) (wd y : String)
    (kernel : KernelResult) (data : StoreData) (h : kernel.returncode = 0) :
    run_dispersion_simulation steps ws wd y kernel data
      = (DispersionOutcome.success ⟨steps, ws, wd, y⟩
          (get_dispersion_results data y)
          (get_dispersion_results data y).length, data) := by
  unfold run_dispersion_simulation get_dispersion_results
  rw [if_neg (by simp [h])]

theorem run_dispersion_matches_query_witness :
    run_dispersion_simulation 20 5 "NE" "2025" ⟨0, ""⟩
        [("2025", [("Kolar", emptyRecord)])]
      = (DispersionOutcome.success ⟨20, 5, "NE", "2025"⟩
          (get_dispersion_results [("2025", [("Kolar", emptyRecord)])] "2025")
          (get_dispersion_results [("2025", [("Kolar", emptyRecord)])] "2025").length,
         [("2025", [("Kolar", emptyRecord)])]) :=
  run_dispersion_matches_query 20 5 "NE" "2025" ⟨0, ""⟩
    [("2025", [("Kolar", emptyRecord)])] rfl

theorem get_emission_by_district_some {data : StoreData} {d y : String}
    {v : EmissionView} (h : get_emission_by_district data d y = some v) :
    get_emission_by_district_core data d y = Except.ok (some v) := by
  unfold get_emission_by_district at h
  cases hc : get_emission_by_district_core data d y with
  | error e => rw [hc] at h; cases h
  | ok ov =>
    rw [hc] at h
    exact congrArg Except.ok h

theorem get_emission_by_district_core_ok_district {data : StoreData}
    {d y : String} {v : EmissionView}
    (h : get_emission_by_district_core data d y = Except.ok (some v)) :
    v.district = d := by
  unfold get_emission_by_district_core at h
  cases hy : List.lookup y data with
  | none => simp [hy] at h
  | some yd =>
    simp only [hy] at h
    cases hd : List.lookup d yd with
    | none => simp [hd] at h
    | some rec =>
      simp only [hd] at h
      cases ht : rec.total_emission with
      | none => simp [ht] at h
      | some T =>
        simp only [ht] at h
        by_cases hT : T = 0
        · simp [pyDiv, hT, except_bind_error] at h
        · simp only [pyDiv, if_neg hT, except_bind_ok, Except.ok.injEq,
            Option.some.injEq] at h
          rw [← h]

/-- C7: no result sequence produced by any of the three query contracts —
all-districts emissions, dispersion results, capture results — contains an
entry for the reserved year-level key "timestamp", for every store and
year. -/
theorem query_results_skip_timestamp (data : StoreData) (y : String) :
    (∀ v ∈ get_all_districts_emission_data data y, v.district ≠ "timestamp") ∧
    (∀ v ∈ get_dispersion_results data y, v.district ≠ "timestamp") ∧
    (∀ v ∈ get_capture_results data y, v.district ≠ "timestamp") := by
  refine ⟨?_, ?_, ?_⟩
  · intro v hv
    unfold get_all_districts_emission_data at hv
    cases hy : List.lookup y data with
    | none => rw [hy] at hv; cases hv
    | some yd =>
      rw [hy] at hv
      obtain ⟨dpair, _, hf⟩ := List.mem_filterMap.mp hv
      by_cases hts : dpair.1 = "timestamp"
      · rw [if_pos hts] at hf; cases hf
      · rw [if_neg hts] at hf
        rw [get_emission_by_district_core_ok_district
          (get_emission_by_district_some hf)]
        exact hts
  · intro v hv
    unfold get_dispersion_results at hv
    cases hy : List.lookup y data with
    | none => rw [hy] at hv; cases hv
    | some yd =>
      rw [hy] at hv
      obtain ⟨dpair, _, hf⟩ := List.mem_filterMap.mp hv
      by_cases hts : dpair.1 = "timestamp"
      · rw [if_pos hts] at hf; cases hf
      · rw [if_neg hts] at hf
        rw [← Option.some_inj.mp hf]
        exact hts
  · intro v hv
    unfold get_capture_results at hv
    cases hy : List.lookup y data with
    | none => rw [hy] at hv; cases hv
    | some yd =>
      rw [hy] at hv
      obtain ⟨dpair, _, hf⟩ := List.mem_filterMap.mp hv
      by_cases hts : dpair.1 = "timestamp"
      · rw [if_pos hts] at hf; cases hf
      · rw [if_neg hts] at hf
        rw [← Option.some_inj.mp hf]
        exact hts

theorem query_results_skip_timestamp_witness :
    ({ district := "Kolar", year := "2025", initial_concentration := 0,
       final_concentration := 0, total_emission := 0,
       neighbors := [] } : DispersionResult).district ≠ "timestamp" :=
  (query_results_skip_timestamp
      [("2025", [("Kolar", emptyRecord), ("timestamp", emptyRecord)])] "2025").2.1
    { district := "Kolar", year := "2025", initial_concentration := 0,
      final_concentration := 0, total_emission := 0, neighbors := [] }
    (by simp [get_dispersion_results, List.lookup, emptyRecord])

theorem get_emission_by_district_eval {data : StoreData} {d y : String}
    {yd : YearData} {rec : DistrictRecord} {T : Rat}
    (hy : List.lookup y data = some yd) (hd : List.lookup d yd = some rec)
    (ht : rec.total_emission = some T) (hT : T ≠ 0) :
    get_emission_by_district data d y = some
      { district := d, year := y,
        transport_emission := rec.transport_emission.getD 0,
        industrial_emission := rec.industrial_emission.getD 0,
        residential_emission := rec.residential_emission.getD 0,
        total_emission := T,
        breakdown :=
          ⟨round2 (rec.transport_emission.getD 0 / T * 100),
           round2 (rec.industrial_emission.getD 0 / T * 100),
           round2 (rec.residential_emission.getD 0 / T * 100)⟩ } := by
  unfold get_emission_by_district get_emission_by_district_core
  simp [hy, hd, ht, pyDiv, hT, except_bind_ok]

/-- C9: for any stored district record whose total_emission is positive and
(per the data-model invariant) equals the sum of its three defaulted
components, the three independently rounded breakdown percentages returned by
get_emission_by_district sum to 100 within a tolerance of 0.1. -/
theorem breakdown_sums_to_100 (data : StoreData) (d y : String)
    {yd : YearData} {rec : DistrictRecord} {T : Rat}
    (hy : List.lookup y data = some yd) (hd : List.lookup d yd = some rec)
    (ht : rec.total_emission = some T) (hpos : 0 < T)
    (hsum : rec.transport_emission.getD 0 + rec.industrial_emission.getD 0 +
        rec.residential_emission.getD 0 = T) :
    ∃ v, get_emission_by_district data d y = some v ∧
      |v.breakdown.transport_percentage + v.breakdown.industrial_percentage +
          v.breakdown.residential_percentage - 100| ≤ 1 / 10 := by
  have hT : T ≠ 0 := ne_of_gt hpos
  refine ⟨_, get_emission_by_district_eval hy hd ht hT, ?_⟩
  show |round2 (rec.transport_emission.getD 0 / T * 100) +
        round2 (rec.industrial_emission.getD 0 / T * 100) +
        round2 (rec.residential_emission.getD 0 / T * 100) - 100| ≤ 1 / 10
  have hx : rec.transport_emission.getD 0 / T * 100 +
      rec.industrial_emission.getD 0 / T * 100 +
      rec.residential_emission.getD 0 / T * 100 = 100 := by
    field_simp
    linarith [hsum]
  have h1 := abs_le.mp (abs_round2_sub_le (rec.transport_emission.getD 0 / T * 100))
  have h2 := abs_le.mp (abs_round2_sub_le (rec.industrial_emission.getD 0 / T * 100))
  have h3 := abs_le.mp (abs_round2_sub_le (rec.residential_emission.getD 0 / T * 100))
  rw [abs_le]
  constructor <;> linarith [h1.1, h1.2, h2.1, h2.2, h3.1, h3.2, hx]

theorem breakdown_sums_to_100_witness :
    ∃ v, get_emission_by_district
        [("2025", [("Kolar",
          { emptyRecord with
              transport_emission := some 1,
              industrial_emission := some 1,
              residential_emission := some 1,
              total_emission := some 3 })])] "Kolar" "2025" = some v ∧
      |v.breakdown.transport_percentage + v.breakdown.industrial_percentage +
          v.breakdown.residential_percentage - 100| ≤ 1 / 10 :=
  breakdown_sums_to_100
    [("2025", [("Kolar",
      { emptyRecord with
          transport_emission := some 1,
          industrial_emission := some 1,
          residential_emission := some 1,
          total_emission := some 3 })])] "Kolar" "2025" rfl rfl rfl
    (by norm_num) (by norm_num)
